import Mathlib

/-! Shallow embedding of the security subsystem of `core/security.py`:
the static complexity and data-flow analyzers over the Python AST, the
runtime import hook, the resource monitor, the guarded-execution wrapper
and the strategy-file validator, together with theorems settling the
specification claims about them. -/

/-- Python expression nodes consumed by the analyzers (mirrors the `ast`
node kinds the source code inspects). -/
inductive PyExpr where
  | name (id : String)
  | const
  | binOp (left right : PyExpr)
  | unaryOp (operand : PyExpr)
  | boolAnd (values : List PyExpr)
  | boolOr (values : List PyExpr)
  | call (func : PyExpr) (args : List PyExpr) (kwargs : List PyExpr)
  | attrE (value : PyExpr) (attrName : String)
  | subscript (value : PyExpr) (index : PyExpr)
  | listE (elts : List PyExpr)
  | tupleE (elts : List PyExpr)

/-- Python statement nodes consumed by the analyzers.  `tryS` carries the
concatenated handler bodies as one list. -/
inductive PyStmt where
  | assign (targets : List PyExpr) (value : PyExpr)
  | exprStmt (value : PyExpr)
  | ret (value : Option PyExpr)
  | ifS (test : PyExpr) (body orelse : List PyStmt)
  | whileS (test : PyExpr) (body orelse : List PyStmt)
  | forS (target iter : PyExpr) (body orelse : List PyStmt)
  | tryS (body handlers orelse finalbody : List PyStmt)
  | withS (ctx : PyExpr) (body : List PyStmt)
  | funcDef (fname : String) (argCount : Nat) (body : List PyStmt)
  | classDef (cname : String) (body : List PyStmt)
  | importS (names : List String)
  | importFrom (moduleName : String) (names : List String)
  | breakS
  | passS

/-- A node yielded by `ast.walk`: either a statement or an expression. -/
inductive PyNode where
  | stmt (s : PyStmt)
  | expr (e : PyExpr)

mutual
/-- All nodes of an expression subtree, the root first (the analogue of
`ast.walk` restricted to one expression). -/
def walkExpr : PyExpr → List PyNode
  | .name i => [.expr (.name i)]
  | .const => [.expr .const]
  | .binOp l r => .expr (.binOp l r) :: (walkExpr l ++ walkExpr r)
  | .unaryOp e => .expr (.unaryOp e) :: walkExpr e
  | .boolAnd vs => .expr (.boolAnd vs) :: walkExprList vs
  | .boolOr vs => .expr (.boolOr vs) :: walkExprList vs
  | .call f args kws =>
      .expr (.call f args kws) :: (walkExpr f ++ walkExprList args ++ walkExprList kws)
  | .attrE v a => .expr (.attrE v a) :: walkExpr v
  | .subscript v i => .expr (.subscript v i) :: (walkExpr v ++ walkExpr i)
  | .listE elts => .expr (.listE elts) :: walkExprList elts
  | .tupleE elts => .expr (.tupleE elts) :: walkExprList elts

def walkExprList : List PyExpr → List PyNode
  | [] => []
  | e :: es => walkExpr e ++ walkExprList es
end

mutual
/-- All nodes of a statement subtree, the root first. -/
def walkStmt : PyStmt → List PyNode
  | .assign ts v => .stmt (.assign ts v) :: (walkExprList ts ++ walkExpr v)
  | .exprStmt v => .stmt (.exprStmt v) :: walkExpr v
  | .ret none => [.stmt (.ret none)]
  | .ret (some v) => .stmt (.ret (some v)) :: walkExpr v
  | .ifS t b o => .stmt (.ifS t b o) :: (walkExpr t ++ walkStmtList b ++ walkStmtList o)
  | .whileS t b o => .stmt (.whileS t b o) :: (walkExpr t ++ walkStmtList b ++ walkStmtList o)
  | .forS tg it b o =>
      .stmt (.forS tg it b o) :: (walkExpr tg ++ walkExpr it ++ walkStmtList b ++ walkStmtList o)
  | .tryS b h o f =>
      .stmt (.tryS b h o f) :: (walkStmtList b ++ walkStmtList h ++ walkStmtList o ++ walkStmtList f)
  | .withS c b => .stmt (.withS c b) :: (walkExpr c ++ walkStmtList b)
  | .funcDef n a b => .stmt (.funcDef n a b) :: walkStmtList b
  | .classDef n b => .stmt (.classDef n b) :: walkStmtList b
  | .importS ns => [.stmt (.importS ns)]
  | .importFrom m ns => [.stmt (.importFrom m ns)]
  | .breakS => [.stmt .breakS]
  | .passS => [.stmt .passS]

def walkStmtList : List PyStmt → List PyNode
  | [] => []
  | s :: ss => walkStmt s ++ walkStmtList ss
end

/-- Whether a walked node is a statement node (`isinstance(_, ast.stmt)`). -/
def isStmtNode : PyNode → Bool
  | .stmt _ => true
  | .expr _ => false

/-- Whether a walked node is one of the branch constructs
`If` / `While` / `For` / `Try`. -/
def isBranchNode : PyNode → Bool
  | .stmt (.ifS _ _ _) => true
  | .stmt (.whileS _ _ _) => true
  | .stmt (.forS _ _ _ _) => true
  | .stmt (.tryS _ _ _ _) => true
  | _ => false

/-- Contribution of a boolean-AND node to the cyclomatic count
(`len(subnode.values) - 1`), zero on every other node. -/
def andWeight : PyNode → Nat
  | .expr (.boolAnd vs) => vs.length - 1
  | _ => 0

/-- Per-node increment of the loop in `check_cyclomatic_complexity`:
`+1` for `If`/`While`/`For`/`Try`, `len(values)-1` for a boolean AND. -/
def nodeWeight : PyNode → Nat
  | .stmt (.ifS _ _ _) => 1
  | .stmt (.whileS _ _ _) => 1
  | .stmt (.forS _ _ _ _) => 1
  | .stmt (.tryS _ _ _ _) => 1
  | .expr (.boolAnd vs) => vs.length - 1
  | _ => 0

/-- Cyclomatic complexity of a function body as computed by
`ComplexityAnalyzer.check_cyclomatic_complexity`: base 1 plus the per-node
increments accumulated over the whole walk. -/
def cyclomaticOfBody (body : List PyStmt) : Nat :=
  1 + ((walkStmtList body).map nodeWeight).sum

/-- Number of `If`/`While`/`For`/`Try` nodes in a function body. -/
def branchNodeCount (body : List PyStmt) : Nat :=
  ((walkStmtList body).filter isBranchNode).length

/-- Total boolean-AND contribution `sum (operand_count - 1)` of a body. -/
def andExtraOfBody (body : List PyStmt) : Nat :=
  ((walkStmtList body).map andWeight).sum

/-- Number of statement nodes in a subtree (used by
`check_function_complexity`, which also counts the `FunctionDef` itself). -/
def stmtNodeCount (body : List PyStmt) : Nat :=
  ((walkStmtList body).filter isStmtNode).length

/-- A function definition found by walking the module tree. -/
structure FuncInfo where
  fname : String
  argCount : Nat
  body : List PyStmt

/-- All function definitions in a module, in walk order. -/
def collectFuncs (body : List PyStmt) : List FuncInfo :=
  (walkStmtList body).filterMap fun n =>
    match n with
    | .stmt (.funcDef nm a b) => some ⟨nm, a, b⟩
    | _ => none

/-- Statement count of a function as in `check_function_complexity`:
`ast.walk(node)` includes the `FunctionDef` node itself, hence the `1 +`. -/
def funcStatementCount (f : FuncInfo) : Nat :=
  1 + stmtNodeCount f.body

/-- Cyclomatic complexity of a function (the `FunctionDef` node itself
contributes no increment). -/
def funcCyclomatic (f : FuncInfo) : Nat :=
  cyclomaticOfBody f.body

mutual
/-- `_get_depth`: entering `If`/`For`/`While`/`With`/`Try` increments the
depth; the result is the maximum depth reached in the subtree. -/
def nestedDepthS : PyStmt → Nat → Nat
  | .ifS _ b o, d => max (d + 1) (max (nestedDepthList b (d + 1)) (nestedDepthList o (d + 1)))
  | .whileS _ b o, d => max (d + 1) (max (nestedDepthList b (d + 1)) (nestedDepthList o (d + 1)))
  | .forS _ _ b o, d => max (d + 1) (max (nestedDepthList b (d + 1)) (nestedDepthList o (d + 1)))
  | .tryS b h o f, d =>
      max (d + 1) (max (max (nestedDepthList b (d + 1)) (nestedDepthList h (d + 1)))
        (max (nestedDepthList o (d + 1)) (nestedDepthList f (d + 1))))
  | .withS _ b, d => max (d + 1) (nestedDepthList b (d + 1))
  | .funcDef _ _ b, d => nestedDepthList b d
  | .classDef _ b, d => nestedDepthList b d
  | _, d => d

def nestedDepthList : List PyStmt → Nat → Nat
  | [], d => d
  | s :: ss, d => max (nestedDepthS s d) (nestedDepthList ss d)
end

/-- Maximum nesting depth of a function (`_get_max_nested_depth`). -/
def funcNesting (f : FuncInfo) : Nat :=
  nestedDepthList f.body 0

/-! ### Policy constants (module-level constants of `core/security.py`) -/

/-- `ALLOWED_MODULES`. -/
def ALLOWED_MODULES : List String :=
  ["pandas", "numpy", "datetime", "typing",
   "core.config", "core.strategies", "core.strategies.base_strategy",
   "submit_strategies", "pandas_datareader", "scipy", "time"]

/-- `ALLOWED_OS_FUNCTIONS`. -/
def ALLOWED_OS_FUNCTIONS : List String :=
  ["os.path.join", "os.path.exists", "os.path.abspath",
   "os.path.dirname", "os.makedirs", "os.path.isfile",
   "os.path.isdir", "os.path.getsize"]

/-- `MAX_CYCLOMATIC_COMPLEXITY`. -/
def MAX_CYCLOMATIC_COMPLEXITY : Nat := 25

/-- `MAX_NESTED_DEPTH`. -/
def MAX_NESTED_DEPTH : Nat := 6

/-- `MAX_FUNCTION_COMPLEXITY` (maximum statements in one function). -/
def MAX_FUNCTION_COMPLEXITY : Nat := 120

/-- `MAX_MODULE_COMPLEXITY` (maximum lines in a module). -/
def MAX_MODULE_COMPLEXITY : Nat := 500

/-- `MAX_MEMORY_MB`. -/
def MAX_MEMORY_MB : ℚ := 512

/-- `MAX_CPU_TIME`, after the test-mode relaxation applied at import time. -/
def maxCpuTime (testMode : Bool) : ℚ := if testMode then 30 else 10

/-- `MAX_EXECUTION_TIME`, after the test-mode relaxation. -/
def maxExecutionTime (testMode : Bool) : ℚ := if testMode then 60 else 30

/-- `str.startswith`, as a kernel-computable test on the character
list. -/
def strStartsWith (s p : String) : Bool := p.data.isPrefixOf s.data

/-- The dotted-prefix membership loop used both by
`ImportHook.find_module` and by the import checks of `analyze_ast`:
`fullname == allowed or fullname.startswith(allowed + ".")`. -/
def allowedListMatch (allowed : List String) (name : String) : Bool :=
  allowed.any fun a => name == a || strStartsWith name (a ++ ".")

/-! ### ComplexityAnalyzer -/

/-- A source unit: the raw text contributes its line count
(`len(code.splitlines())`), the parsed tree its statements. -/
structure ModuleSource where
  lineCount : Nat
  body : List PyStmt

/-- `check_module_complexity`: reject when the line count exceeds
`MAX_MODULE_COMPLEXITY`, in every mode. -/
def checkModuleComplexity (src : ModuleSource) : Except String Unit :=
  if MAX_MODULE_COMPLEXITY < src.lineCount then
    .error "Module complexity exceeded"
  else .ok ()

/-- Run a per-item check over a list, stopping at the first error
(the analyzer loops raise at the first offending node). -/
def checkAll {α : Type} (f : α → Except String Unit) : List α → Except String Unit
  | [] => .ok ()
  | x :: xs =>
    match f x with
    | .error e => .error e
    | .ok _ => checkAll f xs

/-- Statement-count check of `check_function_complexity`: over the limit,
test mode only logs a warning, strict mode raises. -/
def functionCheck (testMode : Bool) (f : FuncInfo) : Except String Unit :=
  if MAX_FUNCTION_COMPLEXITY < funcStatementCount f then
    if testMode then .ok ()
    else .error ("Function complexity exceeded: " ++ f.fname)
  else .ok ()

/-- Per-function check of `check_cyclomatic_complexity`. -/
def cyclomaticCheck (testMode : Bool) (f : FuncInfo) : Except String Unit :=
  if MAX_CYCLOMATIC_COMPLEXITY < funcCyclomatic f then
    if testMode then .ok ()
    else .error ("Cyclomatic complexity exceeded: " ++ f.fname)
  else .ok ()

/-- Per-function check of `check_nested_depth`. -/
def nestingCheck (testMode : Bool) (f : FuncInfo) : Except String Unit :=
  if MAX_NESTED_DEPTH < funcNesting f then
    if testMode then .ok ()
    else .error ("Nested depth exceeded: " ++ f.fname)
  else .ok ()

/-- `ComplexityAnalyzer.analyze`: module check, then the per-function
checks in order.  The infinite-loop and recursion heuristics only log and
are omitted from the verdict. -/
def complexityAnalyze (testMode : Bool) (src : ModuleSource) : Except String Unit :=
  match checkModuleComplexity src with
  | .error e => .error e
  | .ok _ =>
    match checkAll (functionCheck testMode) (collectFuncs src.body) with
    | .error e => .error e
    | .ok _ =>
      match checkAll (cyclomaticCheck testMode) (collectFuncs src.body) with
      | .error e => .error e
      | .ok _ => checkAll (nestingCheck testMode) (collectFuncs src.body)

/-! ### StrategySecurity.analyze_ast node checks -/

/-- The call names rejected outright by `analyze_ast`. -/
def DANGEROUS_CALLS : List String := ["eval", "exec", "open", "system"]

/-- `is_allowed_os_function` applied to an `os.<attr>` attribute node:
`path` and `makedirs` are allowed, everything else is blocked. -/
def isAllowedOsAttribute (a : String) : Bool :=
  a == "path" || a == "makedirs"

/-- `is_allowed_os_path_call`: `os.path.<f>` and `os.<f>` calls must be in
`ALLOWED_OS_FUNCTIONS`; any other call shape passes. -/
def isAllowedOsPathCall : PyExpr → Bool
  | .call (.attrE (.attrE (.name "os") "path") a) _ _ =>
      ALLOWED_OS_FUNCTIONS.contains ("os.path." ++ a)
  | .call (.attrE (.name "os") a) _ _ =>
      ALLOWED_OS_FUNCTIONS.contains ("os." ++ a)
  | _ => true

/-- The `ast.Import` loop of `analyze_ast`: `os` is skipped, every other
name must match `ALLOWED_MODULES`. -/
def checkImportNames : List String → Except String Unit
  | [] => .ok ()
  | n :: ns =>
    if n == "os" then checkImportNames ns
    else if allowedListMatch ALLOWED_MODULES n then checkImportNames ns
    else .error ("Dangerous import detected: " ++ n)

/-- The per-node dispatch of the main loop of `analyze_ast`. -/
def nodeCheck : PyNode → Except String Unit
  | .expr (.call f args kws) =>
    (match f with
     | .name i =>
       if DANGEROUS_CALLS.contains i then
         .error ("Dangerous function call detected: " ++ i)
       else if isAllowedOsPathCall (.call (.name i) args kws) then .ok ()
       else .error "Disallowed os function call detected"
     | _ =>
       if isAllowedOsPathCall (.call f args kws) then .ok ()
       else .error "Disallowed os function call detected")
  | .expr (.attrE (.name v) a) =>
    if v == "os" then
      if isAllowedOsAttribute a then .ok ()
      else .error ("Disallowed os module attribute: os." ++ a)
    else .ok ()
  | .stmt (.importS names) => checkImportNames names
  | .stmt (.importFrom m _) =>
    if m == "os.path" then .ok ()
    else if allowedListMatch ALLOWED_MODULES m then .ok ()
    else .error ("Dangerous import detected: from " ++ m)
  | _ => .ok ()

/-- The raising part of `StrategySecurity.analyze_ast`: the main loop over
`ast.walk(tree)`. -/
def astChecks (body : List PyStmt) : Except String Unit :=
  checkAll nodeCheck (walkStmtList body)

/-! ### DataFlowAnalyzer -/

/-- `external_data_sources` of `DataFlowAnalyzer`. -/
def EXTERNAL_DATA_SOURCES : List String :=
  ["get_data_yahoo", "read_csv", "request", "get",
   "open", "urlopen", "read_html", "load_data", "fetch"]

/-- `sensitive_operations` of `DataFlowAnalyzer`. -/
def SENSITIVE_OPERATIONS : List String :=
  ["eval", "exec", "system", "popen", "query", "execute",
   "call", "check_output", "to_csv", "to_json", "write",
   "post", "put", "send", "upload"]

/-- `_is_external_data_source`: a call whose callee name or attribute name
is in the external-source set. -/
def isExternalDataSource : PyExpr → Bool
  | .call (.name i) _ _ => EXTERNAL_DATA_SOURCES.contains i
  | .call (.attrE _ a) _ _ => EXTERNAL_DATA_SOURCES.contains a
  | _ => false

mutual
/-- `_extract_variables_from_expr`: the variable names referenced by an
expression.  The code recurses through binary/unary operations, call
arguments and keyword values (not the callee), subscript values (not the
index) and list/tuple elements; every other shape contributes nothing. -/
def extractVariablesFromExpr : PyExpr → Finset String
  | .name i => {i}
  | .binOp l r => extractVariablesFromExpr l ∪ extractVariablesFromExpr r
  | .unaryOp e => extractVariablesFromExpr e
  | .call _ args kws => extractVariablesFromList args ∪ extractVariablesFromList kws
  | .subscript v _ => extractVariablesFromExpr v
  | .listE elts => extractVariablesFromList elts
  | .tupleE elts => extractVariablesFromList elts
  | _ => ∅

def extractVariablesFromList : List PyExpr → Finset String
  | [] => ∅
  | e :: es => extractVariablesFromExpr e ∪ extractVariablesFromList es
end

/-- A `variable_flow` record: `{'source': 'external'}` or
`{'source': 'derived', 'parent_vars': ...}`. -/
inductive FlowInfo where
  | external
  | derived (parents : Finset String)
deriving DecidableEq

/-- Replace the binding of `k` in an association list (dictionary update). -/
def setEntry {β : Type} (d : List (String × β)) (k : String) (v : β) :
    List (String × β) :=
  (k, v) :: d.filter fun p => p.1 ≠ k

/-- The mutable state of one `DataFlowAnalyzer` run. -/
structure DFState where
  externalDataVars : Finset String
  variableFlow : List (String × FlowInfo)
  assignmentMap : List (String × PyExpr)

/-- The empty analyzer state. -/
def DFState.init : DFState := ⟨∅, [], []⟩

/-- Look up the flow record of a variable. -/
def lookupFlow (st : DFState) (k : String) : Option FlowInfo :=
  st.variableFlow.lookup k

/-- One step of `_build_assignment_map`: record the assignment for each
name target, and when the value is an external-source call, taint every
name target with source `external`. -/
def buildStep (st : DFState) (s : PyStmt) : DFState :=
  match s with
  | .assign targets value =>
    let st1 := targets.foldl
      (fun acc t =>
        match t with
        | PyExpr.name i => { acc with assignmentMap := setEntry acc.assignmentMap i value }
        | _ => acc) st
    if isExternalDataSource value then
      targets.foldl
        (fun acc t =>
          match t with
          | PyExpr.name i =>
            { acc with
              externalDataVars := insert i acc.externalDataVars,
              variableFlow := setEntry acc.variableFlow i FlowInfo.external }
          | _ => acc) st1
    else st1
  | _ => st

/-- One step of `_track_variable_transformations`: when the right-hand
expression references a tainted variable, the target is added to the
tainted set first and `parent_vars` is then computed against the already
updated set. -/
def trackStep (st : DFState) (s : PyStmt) : DFState :=
  match s with
  | .assign targets value =>
    targets.foldl
      (fun acc t =>
        match t with
        | PyExpr.name i =>
          let used := extractVariablesFromExpr value
          if used ∩ acc.externalDataVars = ∅ then acc
          else
            let acc1 := { acc with externalDataVars := insert i acc.externalDataVars }
            { acc1 with
              variableFlow := setEntry acc1.variableFlow i
                (FlowInfo.derived (used.filter fun v => v ∈ acc1.externalDataVars)) }
        | _ => acc) st
  | _ => st

/-- The assignment statements of a module in walk order. -/
def allStmts (body : List PyStmt) : List PyStmt :=
  (walkStmtList body).filterMap fun n =>
    match n with
    | .stmt s => some s
    | _ => none

/-- First pass of `DataFlowAnalyzer.analyze`. -/
def buildPass (body : List PyStmt) : DFState :=
  (allStmts body).foldl buildStep DFState.init

/-- First and second pass of `DataFlowAnalyzer.analyze`; later passes only
emit advisory findings and never change the taint state. -/
def dataFlowAnalyze (body : List PyStmt) : DFState :=
  (allStmts body).foldl trackStep (buildPass body)

/-- `StrategySecurity.analyze_ast`: complexity analysis, then the data-flow
analysis (which never raises), then the dangerous-node checks. -/
def analyzeAst (testMode : Bool) (src : ModuleSource) : Except String Unit :=
  match complexityAnalyze testMode src with
  | .error e => .error e
  | .ok _ =>
    let _ := dataFlowAnalyze src.body
    astChecks src.body

/-! ### ResourceMonitor -/

/-- `memory_growth_threshold`. -/
def memoryGrowthThreshold : ℚ := 15 / 100

/-- `cpu_sustained_threshold`. -/
def cpuSustainedThreshold : ℚ := 80 / 100

/-- Outcome of `check_for_memory_leak`: raise, log a warning, or stay
silent. -/
inductive LeakOutcome where
  | quiet
  | warned
  | violated
deriving DecidableEq

/-- Consecutive samples never decrease (the loop that clears
`consistent_growth`). -/
def nonDecreasingQ : List ℚ → Bool
  | [] => true
  | [_] => true
  | a :: b :: rest => decide (a ≤ b) && nonDecreasingQ (b :: rest)

/-- `check_for_memory_leak` on the recorded memory history (sample values
in MB): with at least 10 samples, look at the last 10; flag when the final
sample grew by more than the threshold over the first and the growth is
consistent; escalate to an error only outside test mode when the final
sample exceeds 80% of `MAX_MEMORY_MB`. -/
def checkForMemoryLeak (testMode : Bool) (memoryHistory : List ℚ) : LeakOutcome :=
  if 10 ≤ memoryHistory.length then
    let recent := memoryHistory.drop (memoryHistory.length - 10)
    let startMem := recent.headD 0
    let endMem := recent.getLastD 0
    if startMem * (1 + memoryGrowthThreshold) < endMem then
      if nonDecreasingQ recent then
        if testMode then .warned
        else if MAX_MEMORY_MB * (8 / 10) < endMem then .violated
        else .warned
      else .quiet
    else .quiet
  else .quiet

/-- `check_for_cpu_abuse`: averages the last 10 CPU samples and reports
whether the sustained-use warning fires; it never raises. -/
def checkForCpuAbuse (cpuHistory : List ℚ) : Bool :=
  if 10 ≤ cpuHistory.length then
    let recent := cpuHistory.drop (cpuHistory.length - 10)
    decide (cpuSustainedThreshold * 100 < recent.sum / (recent.length : ℚ))
  else false

/-- `ResourceMonitor.check_limits` on the current samples: memory, CPU
time and elapsed time against their ceilings, then the leak heuristic
(which can raise), then the CPU heuristic (which cannot).  The histories
are those recorded up to and including this check. -/
def checkLimits (testMode : Bool) (memoryMB cpuTime elapsed : ℚ)
    (memoryHistory cpuHistory : List ℚ) : Except String Unit :=
  if MAX_MEMORY_MB < memoryMB then .error "Memory usage exceeded limit"
  else if maxCpuTime testMode < cpuTime then .error "CPU time exceeded limit"
  else if maxExecutionTime testMode < elapsed then .error "Execution time exceeded limit"
  else
    match checkForMemoryLeak testMode memoryHistory with
    | .violated => .error "Potential memory leak detected"
    | _ =>
      let _ := checkForCpuAbuse cpuHistory
      .ok ()

/-! ### ImportHook -/

/-- The tracking state of one `ImportHook` instance. -/
structure HookState where
  moduleUsage : List (String × Nat)
  importTimes : List (String × List ℚ)
  suspicious : List String

/-- The state of a freshly constructed hook. -/
def HookState.init : HookState := ⟨[], [], []⟩

/-- Add a module name to the suspicious set. -/
def addSuspicious (st : HookState) (m : String) : HookState :=
  { st with suspicious := if st.suspicious.contains m then st.suspicious else m :: st.suspicious }

/-- `min_import_interval`. -/
def minImportInterval : ℚ := 1 / 2

/-- `max_import_count`. -/
def maxImportCount : Nat := 15

/-- `ImportHook.find_module`: record the usage count and timestamp, flag
excessive or rapid imports (warnings only), then allow the
`submit_strategies.` namespace and `os` outright, allow dotted-prefix
matches against the allowed list, and raise on everything else.  The
second component is the raised message, `none` meaning no raise. -/
def findModule (allowed : List String) (st : HookState) (fullname : String)
    (now : ℚ) : HookState × Option String :=
  let count := ((st.moduleUsage.lookup fullname).getD 0) + 1
  let times := ((st.importTimes.lookup fullname).getD []) ++ [now]
  let st1 : HookState :=
    { st with
      moduleUsage := setEntry st.moduleUsage fullname count,
      importTimes := setEntry st.importTimes fullname times }
  let st2 := if maxImportCount < count then addSuspicious st1 fullname else st1
  let st3 :=
    if 2 ≤ times.length then
      if times.getLastD 0 - times.dropLast.getLastD 0 < minImportInterval then
        addSuspicious st2 fullname
      else st2
    else st2
  if strStartsWith fullname "submit_strategies." then (st3, none)
  else if fullname == "os" then (st3, none)
  else if allowedListMatch allowed fullname then (st3, none)
  else (addSuspicious st3 fullname,
        some ("Import of module " ++ fullname ++ " is not allowed"))

/-! ### secure_strategy guard wrapper -/

/-- The exception taxonomy at the guard boundary: a `SecurityError` or any
other Python exception, each carrying its message. -/
inductive PyErr where
  | security (msg : String)
  | other (msg : String)
deriving DecidableEq

/-- `str(e)`. -/
def pyMsg : PyErr → String
  | .security m => m
  | .other m => m

/-- The process-level guard state touched by `secure_strategy`: whether
the import hook sits on `sys.meta_path` and whether monitoring is active. -/
structure GuardState where
  hookInstalled : Bool
  monitoringActive : Bool
deriving DecidableEq

/-- `ImportHook.__enter__`: install the hook. -/
def importHookEnter (st : GuardState) : GuardState :=
  { st with hookInstalled := true }

/-- `ImportHook.__exit__`: remove the hook (runs on every exit path of the
`with` block). -/
def importHookExit (st : GuardState) : GuardState :=
  { st with hookInstalled := false }

/-- `StrategySecurity.secure_strategy`: install the import hook, run the
callable, check resource limits on success; the `with` block removes the
hook on every path, the `except` clauses re-raise `SecurityError` as-is
and wrap any other exception, and the `finally` block stops monitoring. -/
def secureStrategy {α : Type} (func : GuardState → Except PyErr α × GuardState)
    (limitCheck : Except PyErr Unit) (st0 : GuardState) :
    Except PyErr α × GuardState :=
  let st1 := importHookEnter st0
  let res := func st1
  let bodyResult : Except PyErr α :=
    match res.1 with
    | .ok v =>
      match limitCheck with
      | .ok _ => .ok v
      | .error e => .error e
    | .error e => .error e
  let st2 := importHookExit res.2
  let wrapped : Except PyErr α :=
    match bodyResult with
    | .ok v => .ok v
    | .error (.security m) => .error (.security m)
    | .error (.other m) => .error (.security ("Strategy execution failed: " ++ m))
  (wrapped, { st2 with monitoringActive := false })

/-! ### validate_strategy_file -/

/-- The inputs `validate_strategy_file` reads from the filesystem. -/
structure StrategyFile where
  fileExists : Bool
  sizeKB : ℚ
  sourceLines : List String

/-- The body of the `try` block of `validate_strategy_file`: existence,
file size and line length checks, then `analyze_ast` (whose outcome,
including a parse error, is the `analyzeResult` argument), then the
dangerous-pattern scan (whose first match is the `patternHit` argument). -/
def validateStrategyFileInner (f : StrategyFile)
    (analyzeResult : Except PyErr Unit) (patternHit : Option String) :
    Except PyErr Unit :=
  if f.fileExists = false then .error (.security "Strategy file not found")
  else if 500 < f.sizeKB then .error (.security "Strategy file too large")
  else
    match f.sourceLines.find? (fun l => 800 < l.length) with
    | some _ => .error (.security "Excessively long line detected")
    | none =>
      match analyzeResult with
      | .error e => .error e
      | .ok _ =>
        match patternHit with
        | some p => .error (.security ("Dangerous pattern detected: " ++ p))
        | none => .ok ()

/-- `validate_strategy_file`: the surrounding `except Exception` clause
rewraps every escaping exception, `SecurityError` included, into a
`SecurityError` prefixed with `Strategy validation failed: `. -/
def validate_strategy_file (f : StrategyFile)
    (analyzeResult : Except PyErr Unit) (patternHit : Option String) :
    Except PyErr Unit :=
  match validateStrategyFileInner f analyzeResult patternHit with
  | .ok _ => .ok ()
  | .error e => .error (.security ("Strategy validation failed: " ++ pyMsg e))

/-! ### Concrete programs used in counterexamples and witnesses -/

/-- A module holding one 120-statement function: `ast.walk` counts the
`FunctionDef` node too, so its statement count is 121. -/
def bigSrc : ModuleSource :=
  ⟨130, [PyStmt.funcDef "big" 0 (List.replicate 120 PyStmt.passS)]⟩

/-- A module with one small function, accepted in every mode. -/
def smallSrc : ModuleSource := ⟨10, [PyStmt.funcDef "f" 0 [PyStmt.passS]]⟩

/-- A function body holding a three-operand boolean AND and no branch
statement. -/
def andBody : List PyStmt :=
  [PyStmt.exprStmt (PyExpr.boolAnd [PyExpr.name "a", PyExpr.name "b", PyExpr.name "c"])]

/-- `x = read_csv(f)` seeds taint; `y = g(x, y)` references the tainted
`x` and the untainted `y` itself. -/
def c6prog : List PyStmt :=
  [PyStmt.assign [PyExpr.name "x"]
     (PyExpr.call (PyExpr.name "read_csv") [PyExpr.name "f"] []),
   PyStmt.assign [PyExpr.name "y"]
     (PyExpr.call (PyExpr.name "g") [PyExpr.name "x", PyExpr.name "y"] [])]

/-- A chain of `n` nested `if` statements. -/
def nestIfs : Nat → List PyStmt
  | 0 => [PyStmt.passS]
  | n + 1 => [PyStmt.ifS PyExpr.const (nestIfs n) []]

/-- A module with one function nested 7 levels deep, past
`MAX_NESTED_DEPTH`. -/
def deepSrc : ModuleSource := ⟨20, [PyStmt.funcDef "deep" 0 (nestIfs 7)]⟩

/-! ### Helper lemmas -/

theorem checkAll_ok_iff {α : Type} (f : α → Except String Unit) (l : List α) :
    checkAll f l = .ok () ↔ ∀ x ∈ l, f x = .ok () := by
  induction l with
  | nil => simp [checkAll]
  | cons x xs ih =>
    cases hfx : f x with
    | error e => simp [checkAll, hfx, List.forall_mem_cons]
    | ok v =>
      cases v
      simp [checkAll, hfx, List.forall_mem_cons, ih]

theorem checkAll_error_of_mem {α : Type} (f : α → Except String Unit) (l : List α)
    (x : α) (hx : x ∈ l) (hfx : f x ≠ .ok ()) :
    ∃ e, checkAll f l = .error e := by
  cases h : checkAll f l with
  | error e => exact ⟨e, rfl⟩
  | ok v =>
    cases v
    exact absurd ((checkAll_ok_iff f l).mp h x hx) hfx

theorem walkStmtList_append (l1 l2 : List PyStmt) :
    walkStmtList (l1 ++ l2) = walkStmtList l1 ++ walkStmtList l2 := by
  induction l1 with
  | nil => simp [walkStmtList]
  | cons s ss ih => simp [walkStmtList, ih]

theorem nodeWeight_split (n : PyNode) :
    nodeWeight n = (if isBranchNode n then 1 else 0) + andWeight n := by
  rcases n with s | e
  · cases s <;> simp [nodeWeight, isBranchNode, andWeight]
  · cases e <;> simp [nodeWeight, isBranchNode, andWeight]

theorem sum_nodeWeight (l : List PyNode) :
    (l.map nodeWeight).sum = (l.filter isBranchNode).length + (l.map andWeight).sum := by
  induction l with
  | nil => simp
  | cons x xs ih =>
    rw [List.map_cons, List.sum_cons, List.filter_cons, List.map_cons, List.sum_cons,
      nodeWeight_split x, ih]
    cases hx : isBranchNode x <;> simp <;> omega

theorem functionCheck_relaxed (f : FuncInfo) : functionCheck true f = .ok () := by
  unfold functionCheck; split <;> simp

theorem cyclomaticCheck_relaxed (f : FuncInfo) : cyclomaticCheck true f = .ok () := by
  unfold cyclomaticCheck; split <;> simp

theorem nestingCheck_relaxed (f : FuncInfo) : nestingCheck true f = .ok () := by
  unfold nestingCheck; split <;> simp

theorem lookup_setEntry_self {β : Type} (d : List (String × β)) (k : String) (v : β) :
    (setEntry d k v).lookup k = some v := by
  simp [setEntry, List.lookup]

/-! ### Claim theorems -/

/-- C10: for every input file and every outcome of the parser/analyzers,
`validate_strategy_file` either returns normally or fails with exactly one
`SecurityError` whose message begins with `Strategy validation failed: `;
no other exception shape can escape. -/
theorem validate_wraps_every_failure (f : StrategyFile)
    (analyzeResult : Except PyErr Unit) (patternHit : Option String) :
    validate_strategy_file f analyzeResult patternHit = Except.ok () ∨
    ∃ m, validate_strategy_file f analyzeResult patternHit =
      Except.error (PyErr.security ("Strategy validation failed: " ++ m)) := by
  unfold validate_strategy_file
  cases h : validateStrategyFileInner f analyzeResult patternHit with
  | ok v => cases v; exact Or.inl rfl
  | error e => exact Or.inr ⟨pyMsg e, rfl⟩

/-- C8: `secure_strategy` removes the import hook and stops resource
monitoring on every exit path; a non-security exception from the callable
is re-raised as a `SecurityError` containing the original message, and a
`SecurityError` passes through unchanged. -/
theorem secure_strategy_teardown_and_wrapping {α : Type}
    (func : GuardState → Except PyErr α × GuardState)
    (limitCheck : Except PyErr Unit) (st0 : GuardState) :
    ((secureStrategy func limitCheck st0).2.hookInstalled = false ∧
     (secureStrategy func limitCheck st0).2.monitoringActive = false) ∧
    (∀ m st2, func (importHookEnter st0) = (Except.error (PyErr.other m), st2) →
       ∃ pre post, (secureStrategy func limitCheck st0).1 =
         Except.error (PyErr.security (pre ++ m ++ post))) ∧
    (∀ m st2, func (importHookEnter st0) = (Except.error (PyErr.security m), st2) →
       (secureStrategy func limitCheck st0).1 = Except.error (PyErr.security m)) := by
  refine ⟨⟨rfl, rfl⟩, ?_, ?_⟩
  · intro m st2 h
    refine ⟨"Strategy execution failed: ", "", ?_⟩
    simp [secureStrategy, h]
  · intro m st2 h
    simp [secureStrategy, h]

/-- Witness for C8 at a callable that raises a plain error. -/
theorem secure_strategy_witness :
    ∃ pre post,
      (secureStrategy
         (fun s => ((Except.error (PyErr.other "boom") : Except PyErr Unit), s))
         (Except.ok ()) ⟨false, true⟩).1 =
        Except.error (PyErr.security (pre ++ "boom" ++ post)) :=
  (secure_strategy_teardown_and_wrapping
      (fun s => ((Except.error (PyErr.other "boom") : Except PyErr Unit), s))
      (Except.ok ()) ⟨false, true⟩).2.1 "boom" (importHookEnter ⟨false, true⟩) rfl

/-- C9: `find_module` never raises for `os` nor for any name beginning
with `submit_strategies.`, whatever the allowed-modules list holds, while
the static analyzer keeps rejecting `os` attributes such as `os.system`. -/
theorem import_hook_os_bypass :
    (∀ (allowed : List String) (st : HookState) (now : ℚ),
       (findModule allowed st "os" now).2 = none) ∧
    (∀ (allowed : List String) (st : HookState) (now : ℚ) (m : String),
       strStartsWith m "submit_strategies." = true →
       (findModule allowed st m now).2 = none) ∧
    isAllowedOsAttribute "system" = false := by
  refine ⟨fun allowed st now => rfl, ?_, rfl⟩
  intro allowed st now m h
  simp [findModule, h]

/-- Witness for C9 at a concrete `submit_strategies.` descendant. -/
theorem import_hook_os_bypass_witness :
    (findModule [] HookState.init "submit_strategies.alpha" 0).2 = none :=
  import_hook_os_bypass.2.1 [] HookState.init 0 "submit_strategies.alpha" (by decide)

/-- Any name under the `submit_strategies.` namespace also matches the
allowed list, because `submit_strategies` is itself an entry. -/
theorem match_of_submit (m : String)
    (h : strStartsWith m "submit_strategies." = true) :
    allowedListMatch ALLOWED_MODULES m = true := by
  simp only [allowedListMatch, ALLOWED_MODULES]
  exact List.any_eq_true.mpr ⟨"submit_strategies", by simp, by simp [h]⟩

/-- C1 counterexample: `os` neither equals nor is a dotted descendant of
any `allowed_modules` entry, yet `find_module` does not raise on it. -/
theorem import_guard_os_counterexample :
    allowedListMatch ALLOWED_MODULES "os" = false ∧
    (findModule ALLOWED_MODULES HookState.init "os" 0).2 = none :=
  ⟨by decide, rfl⟩

/-- C1 (amended): a module name matching `allowed_modules` by equality or
dotted-prefix descent never raises; every other name except `os` raises a
`SecurityError` naming the module, and raises again on a second call with
the same name (denials are not cached). -/
theorem import_guard_allow_deny (st : HookState) (m : String) (t1 t2 : ℚ) :
    (allowedListMatch ALLOWED_MODULES m = true →
       (findModule ALLOWED_MODULES st m t1).2 = none) ∧
    (allowedListMatch ALLOWED_MODULES m = false → m ≠ "os" →
       (∃ msg, (findModule ALLOWED_MODULES st m t1).2 = some msg ∧
          ∃ pre post, msg = pre ++ m ++ post) ∧
       ∃ msg2, (findModule ALLOWED_MODULES
           (findModule ALLOWED_MODULES st m t1).1 m t2).2 = some msg2) := by
  constructor
  · intro h
    cases h1 : strStartsWith m "submit_strategies." <;> cases h2 : m == "os" <;>
      simp [findModule, h1, h2, h]
  · intro h hos
    have hsub : strStartsWith m "submit_strategies." = false := by
      cases hs : strStartsWith m "submit_strategies." with
      | false => rfl
      | true => rw [match_of_submit m hs] at h; cases h
    have h2 : (m == "os") = false := beq_eq_false_iff_ne.mpr hos
    refine ⟨⟨"Import of module " ++ m ++ " is not allowed", ?_,
        "Import of module ", " is not allowed", rfl⟩,
      "Import of module " ++ m ++ " is not allowed", ?_⟩
    · simp [findModule, hsub, h2, h]
    · simp [findModule, hsub, h2, h]

/-- Witness for C1 at the allowed `pandas` and the blocked `socket`,
the latter denied twice in a row. -/
theorem import_guard_allow_deny_witness :
    (findModule ALLOWED_MODULES HookState.init "pandas" 0).2 = none ∧
    (∃ msg, (findModule ALLOWED_MODULES HookState.init "socket" 0).2 = some msg ∧
       ∃ pre post, msg = pre ++ "socket" ++ post) ∧
    ∃ msg2, (findModule ALLOWED_MODULES
        (findModule ALLOWED_MODULES HookState.init "socket" 0).1 "socket" 1).2 =
        some msg2 := by
  refine ⟨(import_guard_allow_deny HookState.init "pandas" 0 0).1 (by decide), ?_, ?_⟩
  · exact ((import_guard_allow_deny HookState.init "socket" 0 1).2 (by decide) (by decide)).1
  · exact ((import_guard_allow_deny HookState.init "socket" 0 1).2 (by decide) (by decide)).2

/-- C3 counterexample: with the memory sample exactly at `MAX_MEMORY_MB`
(and all other inputs quiet), `check_limits` returns normally, although
the claim demands a raise at `sample ≥ max_memory_mb`. -/
theorem check_limits_boundary_counterexample :
    checkLimits false 512 0 0 [] [] = Except.ok () ∧ MAX_MEMORY_MB ≤ (512 : ℚ) :=
  ⟨rfl, by norm_num [MAX_MEMORY_MB]⟩

/-- C3 (amended): when the CPU-time and elapsed-time samples are within
their ceilings and the memory history is too short for the leak heuristic,
`check_limits` raises if and only if the memory sample strictly exceeds
`MAX_MEMORY_MB`; at or below the ceiling it never raises. -/
theorem check_limits_memory_iff (testMode : Bool) (memoryMB cpuTime elapsed : ℚ)
    (memoryHistory cpuHistory : List ℚ)
    (hcpu : cpuTime ≤ maxCpuTime testMode)
    (htime : elapsed ≤ maxExecutionTime testMode)
    (hhist : memoryHistory.length < 10) :
    (∃ e, checkLimits testMode memoryMB cpuTime elapsed memoryHistory cpuHistory =
        Except.error e) ↔ MAX_MEMORY_MB < memoryMB := by
  have h1 : ¬ (maxCpuTime testMode < cpuTime) := not_lt.mpr hcpu
  have h2 : ¬ (maxExecutionTime testMode < elapsed) := not_lt.mpr htime
  have h3 : checkForMemoryLeak testMode memoryHistory = .quiet := by
    unfold checkForMemoryLeak
    rw [if_neg (by omega)]
  by_cases hm : MAX_MEMORY_MB < memoryMB
  · simp [checkLimits, hm]
  · simp [checkLimits, hm, h1, h2, h3]

/-- Witness for C3 at a memory sample over the ceiling. -/
theorem check_limits_memory_iff_witness :
    ∃ e, checkLimits false 600 0 0 [] [] = Except.error e :=
  (check_limits_memory_iff false 600 0 0 [] []
      (by norm_num [maxCpuTime]) (by norm_num [maxExecutionTime]) (by simp)).mpr
    (by norm_num [MAX_MEMORY_MB])

/-- C7: with at least 10 recorded memory samples, `check_for_memory_leak`
flags a potential leak exactly when the last of the final 10 samples
exceeds the first by more than 15% and the window never decreases; it
escalates to a hard violation exactly when additionally the monitor is in
strict (non-test) mode and the last sample exceeds 80% of
`MAX_MEMORY_MB`; otherwise it only logs. -/
theorem memory_leak_heuristic (testMode : Bool) (history : List ℚ)
    (hlen : 10 ≤ history.length) :
    (checkForMemoryLeak testMode history ≠ .quiet ↔
       ((history.drop (history.length - 10)).headD 0 * (1 + memoryGrowthThreshold) <
          (history.drop (history.length - 10)).getLastD 0 ∧
        nonDecreasingQ (history.drop (history.length - 10)) = true)) ∧
    (checkForMemoryLeak testMode history = .violated ↔
       ((history.drop (history.length - 10)).headD 0 * (1 + memoryGrowthThreshold) <
          (history.drop (history.length - 10)).getLastD 0 ∧
        nonDecreasingQ (history.drop (history.length - 10)) = true ∧
        testMode = false ∧
        MAX_MEMORY_MB * (8 / 10) < (history.drop (history.length - 10)).getLastD 0)) := by
  unfold checkForMemoryLeak
  rw [if_pos hlen]
  by_cases hg : (history.drop (history.length - 10)).headD 0 * (1 + memoryGrowthThreshold) <
      (history.drop (history.length - 10)).getLastD 0 <;>
    by_cases hn : nonDecreasingQ (history.drop (history.length - 10)) = true <;>
      by_cases he : MAX_MEMORY_MB * (8 / 10) <
          (history.drop (history.length - 10)).getLastD 0 <;>
        cases testMode <;>
          simp only [if_pos, if_neg, hg, hn, he, if_true, if_false, Bool.false_eq_true,
            Bool.true_eq_false, ite_true, ite_false, ite_self, eq_iff_iff] <;>
          simp [hg, hn, he]

/-- Witness for C7 at a consistently growing window past 80% of the
memory ceiling, which escalates to a violation. -/
theorem memory_leak_heuristic_witness :
    checkForMemoryLeak false
      [350, 360, 370, 380, 390, 400, 410, 415, 420, 425] = LeakOutcome.violated :=
  (memory_leak_heuristic false
      [350, 360, 370, 380, 390, 400, 410, 415, 420, 425] (by simp)).2.mpr
    ⟨by norm_num [memoryGrowthThreshold],
     by norm_num [nonDecreasingQ],
     rfl,
     by norm_num [MAX_MEMORY_MB]⟩

/-- `complexityAnalyze` succeeds exactly when the module check and the
three per-function check passes all succeed. -/
theorem complexityAnalyze_ok_iff (t : Bool) (src : ModuleSource) :
    complexityAnalyze t src = .ok () ↔
      (checkModuleComplexity src = .ok () ∧
       checkAll (functionCheck t) (collectFuncs src.body) = .ok () ∧
       checkAll (cyclomaticCheck t) (collectFuncs src.body) = .ok () ∧
       checkAll (nestingCheck t) (collectFuncs src.body) = .ok ()) := by
  unfold complexityAnalyze
  cases h0 : checkModuleComplexity src <;>
    cases h1 : checkAll (functionCheck t) (collectFuncs src.body) <;>
      cases h2 : checkAll (cyclomaticCheck t) (collectFuncs src.body) <;>
        cases h3 : checkAll (nestingCheck t) (collectFuncs src.body) <;>
          simp_all

/-- C4: a module over the line ceiling is rejected in both modes, while
the per-function statement/cyclomatic/nesting ceilings reject only in
strict mode; in relaxed mode the analysis runs to completion whenever the
line count is within bounds. -/
theorem complexity_mode_thresholds (src : ModuleSource) :
    (∀ t, MAX_MODULE_COMPLEXITY < src.lineCount →
        ∃ e, complexityAnalyze t src = Except.error e) ∧
    (src.lineCount ≤ MAX_MODULE_COMPLEXITY →
        complexityAnalyze true src = Except.ok ()) ∧
    (src.lineCount ≤ MAX_MODULE_COMPLEXITY →
      (∃ f ∈ collectFuncs src.body,
          MAX_FUNCTION_COMPLEXITY < funcStatementCount f ∨
          MAX_CYCLOMATIC_COMPLEXITY < funcCyclomatic f ∨
          MAX_NESTED_DEPTH < funcNesting f) →
        ∃ e, complexityAnalyze false src = Except.error e) := by
  refine ⟨?_, ?_, ?_⟩
  · intro t h
    cases hres : complexityAnalyze t src with
    | error e => exact ⟨e, rfl⟩
    | ok v =>
      exfalso
      have hmod := ((complexityAnalyze_ok_iff t src).mp hres).1
      unfold checkModuleComplexity at hmod
      rw [if_pos h] at hmod
      exact absurd hmod (by simp)
  · intro h
    refine (complexityAnalyze_ok_iff true src).mpr ⟨?_, ?_, ?_, ?_⟩
    · unfold checkModuleComplexity
      rw [if_neg (not_lt.mpr h)]
    · exact (checkAll_ok_iff _ _).mpr fun f _ => functionCheck_relaxed f
    · exact (checkAll_ok_iff _ _).mpr fun f _ => cyclomaticCheck_relaxed f
    · exact (checkAll_ok_iff _ _).mpr fun f _ => nestingCheck_relaxed f
  · intro _ hex
    rcases hex with ⟨f, hf, hlim⟩
    cases hres : complexityAnalyze false src with
    | error e => exact ⟨e, rfl⟩
    | ok v =>
      exfalso
      have hall := (complexityAnalyze_ok_iff false src).mp hres
      rcases hlim with hs | hc | hn
      · have h1 := (checkAll_ok_iff _ _).mp hall.2.1 f hf
        unfold functionCheck at h1
        rw [if_pos hs] at h1
        exact absurd h1 (by simp)
      · have h2 := (checkAll_ok_iff _ _).mp hall.2.2.1 f hf
        unfold cyclomaticCheck at h2
        rw [if_pos hc] at h2
        exact absurd h2 (by simp)
      · have h3 := (checkAll_ok_iff _ _).mp hall.2.2.2 f hf
        unfold nestingCheck at h3
        rw [if_pos hn] at h3
        exact absurd h3 (by simp)

/-- Witness for C4: an oversized module is rejected even in relaxed mode,
a small module passes in relaxed mode, and a deeply nested function is
rejected in strict mode. -/
theorem complexity_mode_thresholds_witness :
    (∃ e, complexityAnalyze true ⟨501, []⟩ = Except.error e) ∧
    complexityAnalyze true smallSrc = Except.ok () ∧
    (∃ e, complexityAnalyze false deepSrc = Except.error e) := by
  refine ⟨(complexity_mode_thresholds ⟨501, []⟩).1 true (by decide),
    (complexity_mode_thresholds smallSrc).2.1 (by decide),
    (complexity_mode_thresholds deepSrc).2.2 (by decide) ?_⟩
  refine ⟨⟨"deep", 0, nestIfs 7⟩, ?_, Or.inr (Or.inr (by decide))⟩
  rw [show collectFuncs deepSrc.body = [⟨"deep", 0, nestIfs 7⟩] from rfl]
  exact List.mem_singleton_self _

set_option maxRecDepth 10000 in
/-- C2 counterexample: the vetting verdict reads the hidden test-mode
flag; the same source is rejected in strict mode and accepted in relaxed
mode, so the verdict is not a function of the source text alone. -/
theorem analyze_mode_counterexample :
    analyzeAst false bigSrc ≠ analyzeAst true bigSrc := by
  have h1 : analyzeAst false bigSrc = Except.error "Function complexity exceeded: big" := rfl
  have h2 : analyzeAst true bigSrc = Except.ok () := rfl
  rw [h1, h2]
  exact fun hcontra => Except.noConfusion hcontra

/-- C2 (amended): static vetting is a function of the source text and the
test-mode flag only; for a fixed flag the verdict is determined, and any
source accepted in strict mode is also accepted in relaxed mode. -/
theorem analyze_strict_accept_relaxed_accept (src : ModuleSource)
    (h : analyzeAst false src = Except.ok ()) :
    analyzeAst true src = Except.ok () := by
  unfold analyzeAst at h ⊢
  cases hc : complexityAnalyze false src with
  | error e => rw [hc] at h; exact absurd h (by simp)
  | ok v =>
    rw [hc] at h
    have hrelaxed : complexityAnalyze true src = .ok () := by
      have hall := (complexityAnalyze_ok_iff false src).mp hc
      exact (complexityAnalyze_ok_iff true src).mpr
        ⟨hall.1,
         (checkAll_ok_iff _ _).mpr fun f _ => functionCheck_relaxed f,
         (checkAll_ok_iff _ _).mpr fun f _ => cyclomaticCheck_relaxed f,
         (checkAll_ok_iff _ _).mpr fun f _ => nestingCheck_relaxed f⟩
    rw [hrelaxed]
    exact h

/-- Witness for C2 at a module accepted in strict mode. -/
theorem analyze_strict_accept_relaxed_accept_witness :
    analyzeAst true smallSrc = Except.ok () :=
  analyze_strict_accept_relaxed_accept smallSrc rfl

/-- C5 counterexample: a function body holding a three-operand boolean
AND has zero `if`/`while`/`for`/`try` branch nodes, yet its computed
cyclomatic complexity is 3, not 1. -/
theorem cyclomatic_zero_branch_counterexample :
    branchNodeCount andBody = 0 ∧ cyclomaticOfBody andBody = 3 ∧
    cyclomaticOfBody andBody ≠ 1 :=
  ⟨rfl, rfl, by decide⟩

/-- C5 (amended): the computed cyclomatic complexity equals
1 + (number of `if`/`while`/`for`/`try` nodes) + (per boolean-AND,
operand count − 1); a body with zero branch nodes and no boolean-AND
contribution scores exactly 1; and inserting a statement into a body
never decreases the computed value. -/
theorem cyclomatic_formula (body b1 b2 : List PyStmt) (s : PyStmt) :
    (cyclomaticOfBody body = 1 + branchNodeCount body + andExtraOfBody body) ∧
    (branchNodeCount body = 0 → andExtraOfBody body = 0 →
       cyclomaticOfBody body = 1) ∧
    cyclomaticOfBody (b1 ++ b2) ≤ cyclomaticOfBody (b1 ++ s :: b2) := by
  have hform : ∀ l, cyclomaticOfBody l = 1 + branchNodeCount l + andExtraOfBody l := by
    intro l
    unfold cyclomaticOfBody branchNodeCount andExtraOfBody
    rw [sum_nodeWeight]
    omega
  refine ⟨hform body, ?_, ?_⟩
  · intro h1 h2
    rw [hform body, h1, h2]
  · unfold cyclomaticOfBody
    rw [walkStmtList_append, walkStmtList_append,
      show walkStmtList (s :: b2) = walkStmt s ++ walkStmtList b2 from rfl]
    simp only [List.map_append, List.sum_append]
    omega

/-- Witness for C5: a branchless, AND-free body scores 1, and adding an
`if` does not decrease the score. -/
theorem cyclomatic_formula_witness :
    cyclomaticOfBody [PyStmt.passS] = 1 ∧
    cyclomaticOfBody [] ≤ cyclomaticOfBody [PyStmt.ifS PyExpr.const [] []] :=
  ⟨(cyclomatic_formula [PyStmt.passS] [] [] PyStmt.passS).2.1 rfl rfl,
   (cyclomatic_formula [] [] [] (PyStmt.ifS PyExpr.const [] [])).2.2⟩

/-- C6 counterexample: after `x = read_csv(f)` only `x` is tainted, yet
processing `y = g(x, y)` records `parents = {x, y}`, because the target
is inserted into the tainted set before `parent_vars` is computed; the
already-tainted names referenced are just `{x}`. -/
theorem dataflow_parents_counterexample :
    (buildPass c6prog).externalDataVars = {"x"} ∧
    lookupFlow (dataFlowAnalyze c6prog) "y" = some (FlowInfo.derived {"x", "y"}) ∧
    ({"x", "y"} : Finset String) ≠ {"x"} :=
  ⟨by decide, by decide, by decide⟩

/-- C6 (amended): an assignment from an external-source call taints its
name target with source External; an assignment whose right-hand side
references an already-tainted variable taints its target with source
Derived, whose parents are the referenced names tainted after the target
itself is added — the referenced already-tainted names plus the target
when it references itself. -/
theorem dataflow_taint_marking (st : DFState) (tid : String) (value : PyExpr) :
    (isExternalDataSource value = true →
       (buildStep st (PyStmt.assign [PyExpr.name tid] value)).externalDataVars =
           insert tid st.externalDataVars ∧
       lookupFlow (buildStep st (PyStmt.assign [PyExpr.name tid] value)) tid =
           some FlowInfo.external) ∧
    (extractVariablesFromExpr value ∩ st.externalDataVars ≠ ∅ →
       (trackStep st (PyStmt.assign [PyExpr.name tid] value)).externalDataVars =
           insert tid st.externalDataVars ∧
       lookupFlow (trackStep st (PyStmt.assign [PyExpr.name tid] value)) tid =
           some (FlowInfo.derived ((extractVariablesFromExpr value).filter
               (fun v => v ∈ insert tid st.externalDataVars)))) := by
  constructor
  · intro h
    constructor
    · simp [buildStep, h]
    · simp [buildStep, h, lookupFlow, lookup_setEntry_self]
  · intro h
    constructor
    · simp [trackStep, h]
    · simp [trackStep, h, lookupFlow, lookup_setEntry_self]

/-- Witness for C6: `x = read_csv()` becomes externally tainted, and an
assignment `w = z` with `z` already tainted becomes Derived. -/
theorem dataflow_taint_marking_witness :
    (buildStep DFState.init
        (PyStmt.assign [PyExpr.name "x"]
          (PyExpr.call (PyExpr.name "read_csv") [] []))).externalDataVars =
      insert "x" DFState.init.externalDataVars ∧
    lookupFlow (trackStep ⟨{"z"}, [], []⟩
        (PyStmt.assign [PyExpr.name "w"] (PyExpr.name "z"))) "w" =
      some (FlowInfo.derived ((extractVariablesFromExpr (PyExpr.name "z")).filter
          (fun v => v ∈ insert "w" ({"z"} : Finset String)))) := by
  refine ⟨((dataflow_taint_marking DFState.init "x" _).1 (by decide)).1, ?_⟩
  exact ((dataflow_taint_marking ⟨{"z"}, [], []⟩ "w" (PyExpr.name "z")).2 (by decide)).2
